import Mathlib

/-!
Shallow embedding of the astropost Gmail client (`src/astropost/client.py`,
`src/astropost/models.py`) and verification of its specification claims.

Modelling conventions:
* Decoded MIME payloads are `Option String`: `none` when Python's
  `get_payload(decode=True)` yields `None` (e.g. a multipart container),
  `some s` with the decoded text otherwise (decoding with
  `errors="replace"` maps non-empty bytes to a non-empty string, empty
  bytes to `""`).
* Python truthiness of an `Optional[str]` is `truthyStr`.
* The BeautifulSoup pipeline (parse HTML, drop `script`/`style` elements,
  `get_text`) is third-party code; it is abstracted as a parameter
  `htmlClean : String → String`.
* The Gmail API is abstracted as functions supplied by the environment;
  a fallible provider call is a sequence of per-attempt outcomes
  `Nat → Except HttpError α`, consumed by the tenacity retry model.
-/

namespace Astropost

/-- Python truthiness of an `Optional[str]` value: truthy iff it is a
non-empty string. -/
def truthyStr : Option String → Bool
  | none => false
  | some s => !(s == "")

/-- Whether the pattern (first argument) occurs at the head of the second
list. -/
def listLeadsWith : List Char → List Char → Bool
  | [], _ => true
  | _ :: _, [] => false
  | p :: ps, c :: cs => p == c && listLeadsWith ps cs

/-- Whether the pattern occurs as a contiguous sublist: Python's
`pat in s`. -/
def listContainsSub (pat : List Char) : List Char → Bool
  | [] => pat.isEmpty
  | c :: rest => listLeadsWith pat (c :: rest) || listContainsSub pat rest

/-- A default-whitespace character for Python `str.strip()` (ASCII
whitespace; the rare non-ASCII Unicode spaces are out of scope of the
model). -/
def isStripChar (c : Char) : Bool :=
  c == ' ' || c == '\t' || c == '\n' || c == '\r' || c == '\x0b' || c == '\x0c'

/-- Python `str.strip()`: drop leading and trailing whitespace. -/
def pyStrip (s : String) : String :=
  String.mk (((s.data.dropWhile isStripChar).reverse.dropWhile isStripChar).reverse)

/-- Python `str.lower()` (ASCII case mapping). -/
def pyLower (s : String) : String :=
  String.mk (s.data.map Char.toLower)

/-- Python `str.startswith(pat)`. -/
def pyLeadsWith (s pat : String) : Bool :=
  listLeadsWith pat.data s.data

/-- The `Email` pydantic model from `models.py`. -/
structure Email where
  id : String
  threadId : String
  sender : String
  subject : String
  date : String
  snippet : String
  body : String := ""
  deriving Repr, DecidableEq

/-! ## MIME messages and `_get_email_body` -/

/-- One part of a multipart message, as `_get_email_body` observes it while
walking: its content type, its `Content-Disposition` header (if any), and
its decoded payload (if any). -/
structure MimePart where
  contentType : String
  contentDisposition : Option String
  payload : Option String
  deriving Repr, DecidableEq

/-- A parsed MIME message: either non-multipart (one content type, one
payload) or multipart (the flattened list of parts in `walk()` order;
container parts carry payload `none`). -/
inductive MimeMsg where
  | single (contentType : String) (payload : Option String)
  | multipart (parts : List MimePart)
  deriving Repr, DecidableEq

/-- `str(part.get("Content-Disposition"))`: a missing header prints as
`"None"`. -/
def dispositionStr : Option String → String
  | none => "None"
  | some s => s

/-- The `"attachment" in content_disposition` test. -/
def isAttachmentDisp (d : Option String) : Bool :=
  listContainsSub "attachment".data (dispositionStr d).data

/-- The body of the `for part in email_message.walk()` loop: threading the
pair `(text_part, html_part)` through the parts in order.  A part is
skipped when its disposition mentions `attachment` or its payload is
missing or empty (Python `if not payload: continue`); otherwise a
`text/plain` payload overwrites `text_part` and a `text/html` payload
overwrites `html_part`. -/
def scanParts : List MimePart → Option String × Option String → Option String × Option String
  | [], acc => acc
  | p :: rest, (t, h) =>
    if isAttachmentDisp p.contentDisposition then
      scanParts rest (t, h)
    else
      match p.payload with
      | none => scanParts rest (t, h)
      | some s =>
        if s == "" then
          scanParts rest (t, h)
        else if p.contentType == "text/plain" then
          scanParts rest (some s, h)
        else if p.contentType == "text/html" then
          scanParts rest (t, some s)
        else
          scanParts rest (t, h)

/-- The part-collection phase of `_get_email_body`: the multipart branch
walks the parts; the non-multipart branch takes the message's own payload
as HTML when the content type is `text/html` and as text otherwise. -/
def collectParts : MimeMsg → Option String × Option String
  | MimeMsg.multipart parts => scanParts parts (none, none)
  | MimeMsg.single ct payload =>
    match payload with
    | none => (none, none)
    | some s =>
      if s == "" then (none, none)
      else if ct == "text/html" then (none, some s)
      else (some s, none)

/-- `GmailClient._get_email_body`, parameterised by the BeautifulSoup
pipeline `htmlClean` (parse, drop `script`/`style`, `get_text`); the
final `.strip()` of both branches is modelled by `String.trim`. -/
def getEmailBody (htmlClean : String → String) (m : MimeMsg) : String :=
  let (textPart, htmlPart) := collectParts m
  if truthyStr textPart then
    pyStrip (textPart.getD "")
  else if truthyStr htmlPart then
    pyStrip (htmlClean (htmlPart.getD ""))
  else
    ""

/-! ## `_sanitize_body` -/

/-- Python's `\w` on the ASCII range: letters, digits, underscore. -/
def isWordChar (c : Char) : Bool :=
  c.isAlphanum || c == '_'

/-- Drops the maximal leading run of word characters (the backtracking of
`(?:\w+)?` followed by a mandatory `\n` always consumes exactly this
run). -/
def dropWordRun : List Char → List Char
  | [] => []
  | c :: rest => if isWordChar c then dropWordRun rest else c :: rest

/-- The characters strictly before the first occurrence of the closing
fence, or `none` when no closing fence exists: the non-greedy `(.*?)`
group of the regex. -/
def innerUpToFence : List Char → Option (List Char)
  | [] => none
  | c :: rest =>
    if listLeadsWith "```".data (c :: rest) then some []
    else (innerUpToFence rest).map (c :: ·)

/-- Attempts to match ````` ```(?:\w+)?\n(.*?)``` ````` at the head of the
character list, returning the group.  The optional `(?:\w+)?` before the
mandatory newline always consumes exactly the maximal word run, since a
shorter one would leave a word character where the newline is required. -/
def tryMatchAt (l : List Char) : Option (List Char) :=
  if listLeadsWith "```".data l then
    match dropWordRun (l.drop 3) with
    | c :: body => if c == '\n' then innerUpToFence body else none
    | [] => none
  else none

/-- `re.search` of the fence pattern: the leftmost position where the whole
pattern matches, scanning forward one character at a time. -/
def searchFence : List Char → Option (List Char)
  | [] => none
  | c :: rest =>
    match tryMatchAt (c :: rest) with
    | some inner => some inner
    | none => searchFence rest

/-- `GmailClient._sanitize_body`: the first fenced code block's content,
stripped, when the fence regex matches; otherwise the text stripped. -/
def sanitizeBody (text : String) : String :=
  match searchFence text.data with
  | some inner => pyStrip (String.mk inner)
  | none => pyStrip text

/-! ## The reply/forward preparation of `send_email`

`send_email` starts by computing `thread_id`, a possibly rewritten
`subject`, and `quoted_info` from the reply/forward context.  The call
`self.get_email_details(...)` is abstracted as an environment function
`fetch : String → Option Email`. -/

/-- Result of the reply/forward context block of `send_email` (lines
220-247): the effective subject, the thread id (if any) and the quoted
block (if any). -/
structure SendPrep where
  subject : String
  threadId : Option String
  quotedInfo : Option String
  deriving Repr, DecidableEq

/-- The quoted block built when replying:
`f"\n\nOn {original.date}, {original.sender} wrote:\n{original.snippet}"`. -/
def replyQuote (original : Email) : String :=
  "\n\nOn " ++ original.date ++ ", " ++ original.sender ++ " wrote:\n" ++ original.snippet

/-- The quoted block built when forwarding. -/
def forwardQuote (original : Email) : String :=
  "\n\n---------- Forwarded message ---------\nFrom: " ++ original.sender ++
    "\nDate: " ++ original.date ++ "\nSubject: " ++ original.subject ++
    "\n\n" ++ original.body

/-- Subject rewriting on reply: keep a non-empty caller subject; otherwise
prepend `Re: ` unless the original subject already starts with `re:`
case-insensitively. -/
def replySubject (subject : String) (original : Email) : String :=
  if subject == "" then
    if !(pyLeadsWith (pyLower original.subject) "re:") then
      "Re: " ++ original.subject
    else
      original.subject
  else subject

/-- Subject rewriting on forward, analogous with `Fwd: `/`fwd:`. -/
def forwardSubject (subject : String) (original : Email) : String :=
  if subject == "" then
    if !(pyLeadsWith (pyLower original.subject) "fwd:") then
      "Fwd: " ++ original.subject
    else
      original.subject
  else subject

/-- The reply/forward context block of `send_email`: `if reply_to_id: ...
elif forward_id: ...`, each branch fetching the original and, when the
fetch succeeds, rewriting the subject and building the quoted block; only
the reply branch records the thread id. -/
def replyForwardPrep (fetch : String → Option Email) (subject : String)
    (replyToId forwardId : Option String) : SendPrep :=
  if truthyStr replyToId then
    match fetch (replyToId.getD "") with
    | some original =>
      { subject := replySubject subject original
        threadId := some original.threadId
        quotedInfo := some (replyQuote original) }
    | none => { subject := subject, threadId := none, quotedInfo := none }
  else if truthyStr forwardId then
    match fetch (forwardId.getD "") with
    | some original =>
      { subject := forwardSubject subject original
        threadId := none
        quotedInfo := some (forwardQuote original) }
    | none => { subject := subject, threadId := none, quotedInfo := none }
  else
    { subject := subject, threadId := none, quotedInfo := none }

/-- The plain-text body set on the outgoing message (line 251):
`clean_body + (quoted_info if quoted_info else "")`. -/
def fullTextBody (fetch : String → Option Email) (subject body : String)
    (replyToId forwardId : Option String) : String :=
  sanitizeBody body ++ ((replyForwardPrep fetch subject replyToId forwardId).quotedInfo.getD "")

/-- The `threadId` field of the `create_message` payload (lines 304-307):
present only when `thread_id` is truthy. -/
def createMessageThreadId (fetch : String → Option Email) (subject : String)
    (replyToId forwardId : Option String) : Option String :=
  let prep := replyForwardPrep fetch subject replyToId forwardId
  if truthyStr prep.threadId then prep.threadId else none

/-- The subject header placed on the outgoing message (line 273). -/
def sentSubject (fetch : String → Option Email) (subject : String)
    (replyToId forwardId : Option String) : String :=
  (replyForwardPrep fetch subject replyToId forwardId).subject

/-! ## Provider calls, tenacity retry, and the fetching operations -/

/-- An HTTP error raised by the provider SDK (`googleapiclient.errors.HttpError`),
identified by its status code. -/
structure HttpErr where
  status : Nat
  deriving Repr, DecidableEq

/-- The raw data `get_email_details` reads out of a successful
`messages().get(..., format="raw")` response after base64 decoding and
`message_from_bytes` parsing: the API-level `threadId` and `snippet`
(`snippet` may be absent), the three headers (each possibly missing or
empty), and the parsed MIME structure. -/
structure RawEmailData where
  threadId : String
  snippet : Option String
  subject : Option String
  sender : Option String
  date : Option String
  mime : MimeMsg
  deriving Repr, DecidableEq

/-- Python `x or default` for `x : Optional[str]`: the default replaces
both a missing and an empty value. -/
def orDefault (x : Option String) (default : String) : String :=
  match x with
  | none => default
  | some s => if s == "" then default else s

/-- Construction of the `Email` returned by `get_email_details` from a
successful response (lines 131-144). -/
def buildEmail (htmlClean : String → String) (msgId : String) (m : RawEmailData) : Email :=
  { id := msgId
    threadId := m.threadId
    sender := orDefault m.sender "Unknown"
    subject := orDefault m.subject "(No Subject)"
    date := orDefault m.date ""
    snippet := m.snippet.getD ""
    body := getEmailBody htmlClean m.mime }

/-- The tenacity retry loop with `retry_if_exception_type(HttpError)`:
`rem` further attempts are allowed after the current one (attempt index
`k`).  Returns the final outcome together with the number of attempts
performed.  `wait_exponential` only affects timing and is not modelled. -/
def retryFrom (act : Nat → Except HttpErr α) : Nat → Nat → Except HttpErr α × Nat
  | 0, k => (act k, k + 1)
  | rem + 1, k =>
    match act k with
    | Except.ok a => (Except.ok a, k + 1)
    | Except.error _ => retryFrom act rem (k + 1)

/-- `@retry(stop=stop_after_attempt(3), ...)`: up to three attempts. -/
def tenacityRetry (act : Nat → Except HttpErr α) : Except HttpErr α × Nat :=
  retryFrom act 2 0

/-- One execution of the body of `get_email_details` (lines 120-147): the
provider call outcome at attempt `k` is `act k`; an `HttpError` is caught
and converted to `None`, so the body itself never raises. -/
def getEmailDetailsOnce (htmlClean : String → String) (msgId : String)
    (act : Nat → Except HttpErr RawEmailData) (k : Nat) : Except HttpErr (Option Email) :=
  match act k with
  | Except.error _ => Except.ok none
  | Except.ok m => Except.ok (some (buildEmail htmlClean msgId m))

/-- `get_email_details` under its retry decorator, returning the result and
the number of provider-call attempts performed. -/
def getEmailDetails (htmlClean : String → String) (msgId : String)
    (act : Nat → Except HttpErr RawEmailData) : Except HttpErr (Option Email) × Nat :=
  tenacityRetry (getEmailDetailsOnce htmlClean msgId act)

/-- One execution of the body of `list_emails` (lines 87-113): the provider
list call yields message-reference ids; each id is resolved through
`get_email_details` (abstracted as `detailsOf`, which never raises) and
`None` results are dropped; an `HttpError` from the list call is re-raised
in both arms of the handler (the trailing `return []` is unreachable). -/
def listEmailsOnce (detailsOf : String → Option Email)
    (act : Nat → Except HttpErr (List String)) (k : Nat) : Except HttpErr (List Email) :=
  match act k with
  | Except.error e => Except.error e
  | Except.ok refs => Except.ok (refs.filterMap detailsOf)

/-- `list_emails` under its retry decorator. -/
def listEmails (detailsOf : String → Option Email)
    (act : Nat → Except HttpErr (List String)) : Except HttpErr (List Email) × Nat :=
  tenacityRetry (listEmailsOnce detailsOf act)

/-- The request body built by `modify_labels` (line 337):
`{"addLabelIds": add_labels, "removeLabelIds": remove_labels}`. -/
structure ModifyBody where
  addLabelIds : List String
  removeLabelIds : List String
  deriving Repr, DecidableEq

/-- `modify_labels` builds exactly this body. -/
def modifyLabelsBody (addLabels removeLabels : List String) : ModifyBody :=
  { addLabelIds := addLabels, removeLabelIds := removeLabels }

/-- One execution of the body of `modify_labels` (lines 336-344): an
`HttpError` is caught, printed and re-raised; success returns `True`. -/
def modifyLabelsOnce (act : Nat → Except HttpErr Unit) (k : Nat) : Except HttpErr Bool :=
  match act k with
  | Except.error e => Except.error e
  | Except.ok _ => Except.ok true

/-- `modify_labels` under its retry decorator. -/
def modifyLabels (act : Nat → Except HttpErr Unit) : Except HttpErr Bool × Nat :=
  tenacityRetry (modifyLabelsOnce act)

/-- One execution of the body of `trash_email` (lines 352-357), same shape
as `modify_labels`. -/
def trashEmailOnce (act : Nat → Except HttpErr Unit) (k : Nat) : Except HttpErr Bool :=
  match act k with
  | Except.error e => Except.error e
  | Except.ok _ => Except.ok true

/-- `trash_email` under its retry decorator. -/
def trashEmail (act : Nat → Except HttpErr Unit) : Except HttpErr Bool × Nat :=
  tenacityRetry (trashEmailOnce act)

/-! ## The provider side of a label mutation -/

/-- A provider-side message: its immutable content and its label set. -/
structure ProviderMessage where
  content : String
  labels : List String
  deriving Repr, DecidableEq

/-- Modelled from the spec: the glossary's label mutation is a
"provider-side tagging operation (e.g., add/remove UNREAD, INBOX) that
changes a message's visibility/state without altering its content" — the
provider removes the ids in `removeLabelIds` from the target message's
label set and adds those in `addLabelIds`, leaving content untouched. -/
def applyLabelMutation (body : ModifyBody) (m : ProviderMessage) : ProviderMessage :=
  { m with labels :=
      (m.labels.filter (fun l => !(body.removeLabelIds.contains l))) ++
        body.addLabelIds.filter (fun l => !(m.labels.contains l)) }

/-- Modelled from the spec: the provider applies a `messages().modify`
request to the single message addressed by `msgId`, leaving every other
message untouched. -/
def applyModifyRequest (mailbox : String → Option ProviderMessage) (msgId : String)
    (body : ModifyBody) : String → Option ProviderMessage :=
  fun j => if j == msgId then (mailbox j).map (applyLabelMutation body) else mailbox j

/-! ## Specification-side characterisation of the body-extraction walk -/

/-- A part that the walk actually records for content type `ct`: not marked
as an attachment, with a non-empty decoded payload, and of that content
type. -/
def usablePart (ct : String) (p : MimePart) : Bool :=
  !(isAttachmentDisp p.contentDisposition) && truthyStr p.payload && (p.contentType == ct)

/-- Preference combinator: the first option when present, the second
otherwise. -/
def overlay (o d : Option String) : Option String :=
  match o with
  | some s => some s
  | none => d

/-- The payload of the last usable part of content type `ct` in the list,
if any: the walk overwrites its slot on every usable part, so the last one
wins. -/
def lastUsablePayload (ct : String) : List MimePart → Option String
  | [] => none
  | p :: rest =>
    overlay (lastUsablePayload ct rest) (if usablePart ct p then p.payload else none)

/-! ## Concrete sample data for witnesses and counterexamples -/

/-- A sample fetched original message. -/
def emailA : Email :=
  { id := "m1", threadId := "t1", sender := "alice@example.com", subject := "Hello"
    date := "Mon, 1 Jan 2024", snippet := "snippet text", body := "full body" }

/-- A sample original whose provider-assigned thread id is the empty
string. -/
def emailNoThread : Email :=
  { id := "m0", threadId := "", sender := "bob@example.com", subject := "Sub"
    date := "Tue, 2 Jan 2024", snippet := "sn", body := "b" }

/-- A sample raw response with all three headers absent. -/
def rawNoHeaders : RawEmailData :=
  { threadId := "t7", snippet := none, subject := none, sender := none, date := none
    mime := MimeMsg.single "text/plain" (some "payload") }

theorem overlay_none (x : Option String) : overlay x none = x := by
  cases x <;> rfl

theorem overlay_none_left (d : Option String) : overlay none d = d := rfl

theorem overlay_some (s : String) (d : Option String) : overlay (some s) d = some s := rfl

theorem overlay_assoc (a b c : Option String) :
    overlay (overlay a b) c = overlay a (overlay b c) := by
  cases a <;> cases b <;> rfl

/-- The walk loop computes exactly the last usable `text/plain` and
`text/html` payloads on top of the incoming accumulator. -/
theorem scanParts_eq (parts : List MimePart) : ∀ t h, scanParts parts (t, h) =
    (overlay (lastUsablePayload "text/plain" parts) t,
     overlay (lastUsablePayload "text/html" parts) h) := by
  induction parts with
  | nil => intro t h; rfl
  | cons p rest ih =>
    intro t h
    rcases p with ⟨ct, cd, pl⟩
    by_cases ha : isAttachmentDisp cd
    · simp [scanParts, lastUsablePayload, usablePart, ha, ih, overlay_none]
    · cases hpl : pl with
      | none =>
        simp [scanParts, lastUsablePayload, usablePart, ha, hpl, truthyStr, ih, overlay_none]
      | some s =>
        by_cases hs : s == ""
        · simp [scanParts, lastUsablePayload, usablePart, ha, hpl, truthyStr, hs, ih,
            overlay_none]
        · by_cases hct : ct = "text/plain"
          · subst hct
            simp [scanParts, lastUsablePayload, usablePart, ha, hpl, truthyStr, hs, ih,
              overlay_none, overlay_assoc, overlay_some]
          · by_cases hch : ct = "text/html"
            · subst hch
              simp [scanParts, lastUsablePayload, usablePart, ha, hpl, truthyStr, hs, ih,
                overlay_none, overlay_assoc, overlay_some]
            · simp [scanParts, lastUsablePayload, usablePart, ha, hpl, truthyStr, hs, hct, hch,
                ih, overlay_none]

/-- A recorded payload is never the empty string: the walk skips empty
payloads. -/
theorem lastUsablePayload_ne_empty (ct : String) (parts : List MimePart) (t : String)
    (h : lastUsablePayload ct parts = some t) : (t == "") = false := by
  induction parts with
  | nil => simp [lastUsablePayload] at h
  | cons p rest ih =>
    simp only [lastUsablePayload] at h
    cases hr : lastUsablePayload ct rest with
    | some s =>
      rw [hr, overlay_some] at h
      injection h with h
      subst h
      exact ih hr
    | none =>
      rw [hr, overlay_none_left] at h
      by_cases hu : usablePart ct p
      · rw [if_pos hu] at h
        have h2 : truthyStr p.payload = true := by
          simp only [usablePart, Bool.and_eq_true] at hu
          exact hu.1.2
        rw [h] at h2
        simpa [truthyStr] using h2
      · rw [if_neg hu] at h
        exact absurd h (by simp)

/-- The collection phase on a multipart message yields exactly the last
usable payloads of each kind. -/
theorem collectParts_multipart (parts : List MimePart) :
    collectParts (MimeMsg.multipart parts) =
      (lastUsablePayload "text/plain" parts, lastUsablePayload "text/html" parts) := by
  simp [collectParts, scanParts_eq, overlay_none]

/-- C1 (counterexample): the claim says the extractor "returns the decoded
text/plain body part", but the code strips surrounding whitespace from it;
and a non-multipart message of a non-text, non-HTML content type (here
`application/json`) is used as the text body even though neither a
text/plain nor an HTML part exists, where the claim mandates the empty
string. -/
theorem getEmailBody_claim_counterexample :
    getEmailBody (fun s => s) (MimeMsg.multipart [⟨"text/plain", none, some " hi "⟩]) = "hi" ∧
    "hi" ≠ " hi " ∧
    getEmailBody (fun s => s) (MimeMsg.single "application/json" (some "data")) = "data" ∧
    "data" ≠ "" := by
  refine ⟨by decide, by decide, by decide, by decide⟩

/-- C1 (amended): on a multipart message the extractor returns, stripped of
surrounding whitespace, the decoded payload of the last non-attachment
`text/plain` part with non-empty payload when one exists, preferring it
over any HTML part; when none exists but such a `text/html` part does, it
returns the stripped text of that HTML with `script`/`style` elements
removed (the `htmlClean` pipeline); when neither exists it returns the
empty string.  On a non-multipart message a non-empty payload of content
type `text/html` goes through the HTML pipeline and any other non-empty
payload is used, stripped, as the text body; a missing or empty payload
gives the empty string. -/
theorem getEmailBody_correct (htmlClean : String → String) :
    (∀ parts : List MimePart,
      (∀ t, lastUsablePayload "text/plain" parts = some t →
        getEmailBody htmlClean (MimeMsg.multipart parts) = pyStrip t) ∧
      (lastUsablePayload "text/plain" parts = none →
        ∀ hp, lastUsablePayload "text/html" parts = some hp →
          getEmailBody htmlClean (MimeMsg.multipart parts) = pyStrip (htmlClean hp)) ∧
      (lastUsablePayload "text/plain" parts = none →
        lastUsablePayload "text/html" parts = none →
        getEmailBody htmlClean (MimeMsg.multipart parts) = "")) ∧
    (∀ ct s, s ≠ "" → ct ≠ "text/html" →
      getEmailBody htmlClean (MimeMsg.single ct (some s)) = pyStrip s) ∧
    (∀ s, s ≠ "" →
      getEmailBody htmlClean (MimeMsg.single "text/html" (some s)) = pyStrip (htmlClean s)) ∧
    (∀ ct, getEmailBody htmlClean (MimeMsg.single ct none) = "" ∧
      getEmailBody htmlClean (MimeMsg.single ct (some "")) = "") := by
  refine ⟨fun parts => ⟨?_, ?_, ?_⟩, ?_, ?_, ?_⟩
  · intro t ht
    have hne := lastUsablePayload_ne_empty "text/plain" parts t ht
    simp [getEmailBody, collectParts_multipart, ht, truthyStr, hne]
  · intro ht hp hhp
    have hne := lastUsablePayload_ne_empty "text/html" parts hp hhp
    simp [getEmailBody, collectParts_multipart, ht, hhp, truthyStr, hne]
  · intro ht hh
    simp [getEmailBody, collectParts_multipart, ht, hh, truthyStr]
  · intro ct s hs hct
    simp [getEmailBody, collectParts, truthyStr, hs, hct]
  · intro s hs
    simp [getEmailBody, collectParts, truthyStr, hs]
  · intro ct
    exact ⟨by simp [getEmailBody, collectParts, truthyStr], by
      simp [getEmailBody, collectParts, truthyStr]⟩

/-- C1 (witness). -/
theorem getEmailBody_correct_witness :
    getEmailBody (fun s => s)
        (MimeMsg.multipart
          [⟨"text/plain", some "attachment; filename=a.txt", some "skipped"⟩,
           ⟨"text/html", none, some "<b>html</b>"⟩,
           ⟨"text/plain", none, some " first "⟩,
           ⟨"text/plain", none, some " last \n"⟩]) = pyStrip " last \n" := by
  have h := (getEmailBody_correct (fun s => s)).1
      [⟨"text/plain", some "attachment; filename=a.txt", some "skipped"⟩,
       ⟨"text/html", none, some "<b>html</b>"⟩,
       ⟨"text/plain", none, some " first "⟩,
       ⟨"text/plain", none, some " last \n"⟩]
  exact h.1 " last \n" (by decide)

/-- C2: with `reply_to_id` (resp. `forward_id`) set to a fetchable original
and an empty caller-supplied subject, the sent subject is the original's
subject when it already starts case-insensitively with `re:` (resp.
`fwd:`) and otherwise `Re: ` (resp. `Fwd: `) prepended to it; a non-empty
caller-supplied subject is used as-is. -/
theorem sentSubject_correct (fetch : String → Option Email) (msgId : String) (orig : Email)
    (subj : String) (hid : msgId ≠ "") (horig : fetch msgId = some orig) :
    (sentSubject fetch "" (some msgId) none =
      if pyLeadsWith (pyLower orig.subject) "re:" then orig.subject
      else "Re: " ++ orig.subject) ∧
    (sentSubject fetch "" none (some msgId) =
      if pyLeadsWith (pyLower orig.subject) "fwd:" then orig.subject
      else "Fwd: " ++ orig.subject) ∧
    (subj ≠ "" →
      sentSubject fetch subj (some msgId) none = subj ∧
      sentSubject fetch subj none (some msgId) = subj) := by
  refine ⟨?_, ?_, fun hsub => ⟨?_, ?_⟩⟩ <;>
    simp [sentSubject, replyForwardPrep, truthyStr, hid, horig, replySubject,
      forwardSubject, *] <;>
    cases pyLeadsWith (pyLower orig.subject) "re:" <;>
    cases pyLeadsWith (pyLower orig.subject) "fwd:" <;> simp

/-- C2 (witness). -/
theorem sentSubject_correct_witness :
    (sentSubject (fun _ => some emailA) "" (some "m1") none =
      if pyLeadsWith (pyLower emailA.subject) "re:" then emailA.subject
      else "Re: " ++ emailA.subject) ∧
    (sentSubject (fun _ => some emailA) "" none (some "m1") =
      if pyLeadsWith (pyLower emailA.subject) "fwd:" then emailA.subject
      else "Fwd: " ++ emailA.subject) ∧
    ("mine" ≠ "" →
      sentSubject (fun _ => some emailA) "mine" (some "m1") none = "mine" ∧
      sentSubject (fun _ => some emailA) "mine" none (some "m1") = "mine") :=
  sentSubject_correct (fun _ => some emailA) "m1" emailA "mine" (by decide) rfl

/-- C3 (counterexample): a fetchable original whose provider-assigned
thread id is the empty string is dropped from the payload by the
`if thread_id:` guard, so the payload does not include the original's
thread identifier. -/
theorem threadId_claim_counterexample :
    createMessageThreadId (fun _ => some emailNoThread) "" (some "m0") none = none := by
  decide

/-- C3 (amended): when replying to a fetchable original whose thread
identifier is non-empty, the payload sent to the provider carries exactly
that thread identifier. -/
theorem threadId_propagated (fetch : String → Option Email) (msgId : String) (orig : Email)
    (subj : String) (hid : msgId ≠ "") (horig : fetch msgId = some orig)
    (ht : orig.threadId ≠ "") :
    createMessageThreadId fetch subj (some msgId) none = some orig.threadId := by
  simp [createMessageThreadId, replyForwardPrep, truthyStr, hid, horig, ht]

/-- C3 (witness). -/
theorem threadId_propagated_witness :
    createMessageThreadId (fun _ => some emailA) "s" (some "m1") none = some emailA.threadId :=
  threadId_propagated (fun _ => some emailA) "m1" emailA "s" (by decide) rfl (by decide)

/-- C4: replying to a fetchable original appends
`"\n\nOn {date}, {sender} wrote:\n{snippet}"` to the sanitized body;
forwarding appends the forwarded-message header with the original's
sender, date and subject followed by its full body; with neither
`reply_to_id` nor `forward_id` the plain-text body is exactly the
sanitized body. -/
theorem fullTextBody_correct (fetch : String → Option Email) (msgId : String) (orig : Email)
    (subj body : String) (hid : msgId ≠ "") (horig : fetch msgId = some orig) :
    (fullTextBody fetch subj body (some msgId) none =
      sanitizeBody body ++
        ("\n\nOn " ++ orig.date ++ ", " ++ orig.sender ++ " wrote:\n" ++ orig.snippet)) ∧
    (fullTextBody fetch subj body none (some msgId) =
      sanitizeBody body ++
        ("\n\n---------- Forwarded message ---------\nFrom: " ++ orig.sender ++
          "\nDate: " ++ orig.date ++ "\nSubject: " ++ orig.subject ++
          "\n\n" ++ orig.body)) ∧
    (fullTextBody fetch subj body none none = sanitizeBody body) := by
  refine ⟨?_, ?_, ?_⟩ <;>
    simp [fullTextBody, replyForwardPrep, truthyStr, hid, horig, replyQuote, forwardQuote]

/-- C4 (witness). -/
theorem fullTextBody_correct_witness :
    (fullTextBody (fun _ => some emailA) "s" "  text  " (some "m1") none =
      sanitizeBody "  text  " ++
        ("\n\nOn " ++ emailA.date ++ ", " ++ emailA.sender ++ " wrote:\n" ++
          emailA.snippet)) ∧
    (fullTextBody (fun _ => some emailA) "s" "  text  " none (some "m1") =
      sanitizeBody "  text  " ++
        ("\n\n---------- Forwarded message ---------\nFrom: " ++ emailA.sender ++
          "\nDate: " ++ emailA.date ++ "\nSubject: " ++ emailA.subject ++
          "\n\n" ++ emailA.body)) ∧
    (fullTextBody (fun _ => some emailA) "s" "  text  " none none =
      sanitizeBody "  text  ") :=
  fullTextBody_correct (fun _ => some emailA) "m1" emailA "s" "  text  " (by decide) rfl

/-- C5 (counterexample): with the provider call failing with HTTP 500 on
every attempt, `get_email_details` performs exactly one provider-call
attempt — not up to 3 — because its internal `except HttpError` handler
returns `None` before the retry decorator can observe the exception. -/
theorem retry_claim_counterexample :
    (getEmailDetails (fun s => s) "m1" (fun _ => Except.error ⟨500⟩)).2 = 1 ∧
    (getEmailDetails (fun s => s) "m1" (fun _ => Except.error ⟨500⟩)).1 =
      Except.ok none := by
  exact ⟨rfl, rfl⟩

/-- C5 (amended): `list_emails`, `modify_labels` and `trash_email`
re-attempt the underlying provider call up to 3 times on HTTP error and
otherwise propagate the error; a success on a later attempt is returned
(so the retry is real); `get_email_details`, by contrast, performs the
provider call once and converts an HTTP error to `None`, its retry wrapper
never firing.  No other failure recovery exists in the model. -/
theorem retryPolicy_correct :
    (∀ (detailsOf : String → Option Email) (act : Nat → Except HttpErr (List String)) e₀ e₁ e₂,
      act 0 = Except.error e₀ → act 1 = Except.error e₁ → act 2 = Except.error e₂ →
      listEmails detailsOf act = (Except.error e₂, 3)) ∧
    (∀ (act : Nat → Except HttpErr Unit) e₀ e₁ e₂,
      act 0 = Except.error e₀ → act 1 = Except.error e₁ → act 2 = Except.error e₂ →
      modifyLabels act = (Except.error e₂, 3) ∧ trashEmail act = (Except.error e₂, 3)) ∧
    (∀ (act : Nat → Except HttpErr Unit) e₀,
      act 0 = Except.error e₀ → act 1 = Except.ok () →
      modifyLabels act = (Except.ok true, 2) ∧ trashEmail act = (Except.ok true, 2)) ∧
    (∀ (htmlClean : String → String) (msgId : String)
        (act : Nat → Except HttpErr RawEmailData) e,
      act 0 = Except.error e →
      getEmailDetails htmlClean msgId act = (Except.ok none, 1)) := by
  refine ⟨?_, ?_, ?_, ?_⟩
  · intro detailsOf act e₀ e₁ e₂ h0 h1 h2
    simp [listEmails, tenacityRetry, retryFrom, listEmailsOnce, h0, h1, h2]
  · intro act e₀ e₁ e₂ h0 h1 h2
    constructor <;>
      simp [modifyLabels, trashEmail, tenacityRetry, retryFrom, modifyLabelsOnce,
        trashEmailOnce, h0, h1, h2]
  · intro act e₀ h0 h1
    constructor <;>
      simp [modifyLabels, trashEmail, tenacityRetry, retryFrom, modifyLabelsOnce,
        trashEmailOnce, h0, h1]
  · intro htmlClean msgId act e h0
    simp [getEmailDetails, tenacityRetry, retryFrom, getEmailDetailsOnce, h0]

/-- C5 (witness). -/
theorem retryPolicy_correct_witness :
    listEmails (fun _ => none) (fun _ => Except.error ⟨429⟩) = (Except.error ⟨429⟩, 3) ∧
    modifyLabels (fun _ => Except.error ⟨500⟩) = (Except.error ⟨500⟩, 3) ∧
    trashEmail (fun _ => Except.error ⟨500⟩) = (Except.error ⟨500⟩, 3) ∧
    modifyLabels (fun k => if k = 0 then Except.error ⟨500⟩ else Except.ok ()) =
      (Except.ok true, 2) ∧
    getEmailDetails (fun s => s) "m9" (fun _ => Except.error ⟨404⟩) =
      (Except.ok none, 1) := by
  have h1 := retryPolicy_correct.1 (fun _ => none) (fun _ => Except.error ⟨429⟩)
    ⟨429⟩ ⟨429⟩ ⟨429⟩ rfl rfl rfl
  have h2 := retryPolicy_correct.2.1 (fun _ => Except.error ⟨500⟩) ⟨500⟩ ⟨500⟩ ⟨500⟩
    rfl rfl rfl
  have h3 := retryPolicy_correct.2.2.1
    (fun k => if k = 0 then Except.error ⟨500⟩ else Except.ok ()) ⟨500⟩ rfl rfl
  have h4 := retryPolicy_correct.2.2.2 (fun s => s) "m9" (fun _ => Except.error ⟨404⟩)
    ⟨404⟩ rfl
  exact ⟨h1, h2.1, h2.2, h3.1, h4⟩

/-- C6: the body extractor and the reply/forward preparation are pure
functions of their message inputs: the extractor's output is determined by
the message alone, and the send-path preparation reads the environment
only at the single fetched message id — any two environments agreeing on
that id yield identical subject, thread id, quoted block and plain-text
body. -/
theorem sendPrep_pure :
    (∀ (f₁ f₂ : String → Option Email) (subj body : String) (rid fid : Option String),
      (∀ s, rid = some s → f₁ s = f₂ s) →
      (∀ s, fid = some s → f₁ s = f₂ s) →
      replyForwardPrep f₁ subj rid fid = replyForwardPrep f₂ subj rid fid ∧
      fullTextBody f₁ subj body rid fid = fullTextBody f₂ subj body rid fid ∧
      createMessageThreadId f₁ subj rid fid = createMessageThreadId f₂ subj rid fid) ∧
    (∀ (htmlClean : String → String) (m₁ m₂ : MimeMsg), m₁ = m₂ →
      getEmailBody htmlClean m₁ = getEmailBody htmlClean m₂) := by
  constructor
  · intro f₁ f₂ subj body rid fid h₁ h₂
    have hprep : replyForwardPrep f₁ subj rid fid = replyForwardPrep f₂ subj rid fid := by
      unfold replyForwardPrep
      cases rid with
      | some s =>
        cases fid with
        | some s2 => simp [h₁ s rfl, h₂ s2 rfl]
        | none => simp [h₁ s rfl, truthyStr]
      | none =>
        cases fid with
        | some s2 => simp [truthyStr, h₂ s2 rfl]
        | none => rfl
    exact ⟨hprep, by simp [fullTextBody, hprep], by simp [createMessageThreadId, hprep]⟩
  · intro htmlClean m₁ m₂ h
    rw [h]

/-- C6 (witness). -/
theorem sendPrep_pure_witness :
    (replyForwardPrep (fun _ => some emailA) "s" (some "m1") none =
      replyForwardPrep (fun i => if i == "m1" then some emailA else none) "s" (some "m1") none ∧
     fullTextBody (fun _ => some emailA) "s" "b" (some "m1") none =
      fullTextBody (fun i => if i == "m1" then some emailA else none) "s" "b" (some "m1") none ∧
     createMessageThreadId (fun _ => some emailA) "s" (some "m1") none =
      createMessageThreadId (fun i => if i == "m1" then some emailA else none) "s"
        (some "m1") none) ∧
    getEmailBody (fun s => s) (MimeMsg.single "text/plain" (some "x")) =
      getEmailBody (fun s => s) (MimeMsg.single "text/plain" (some "x")) := by
  constructor
  · exact sendPrep_pure.1 (fun _ => some emailA)
      (fun i => if i == "m1" then some emailA else none) "s" "b" (some "m1") none
      (fun s hs => by cases hs; rfl) (fun s hs => by cases hs)
  · exact sendPrep_pure.2 (fun s => s) _ _ rfl

/-- C7: `modify_labels` sends a request whose body is exactly the
add-label and remove-label id lists, and the provider-side mutation it
denotes changes only the addressed message's label set — every other
message is untouched and no message's content changes. -/
theorem modifyLabels_frame :
    (∀ addLabels removeLabels : List String,
      (modifyLabelsBody addLabels removeLabels).addLabelIds = addLabels ∧
      (modifyLabelsBody addLabels removeLabels).removeLabelIds = removeLabels) ∧
    (∀ (body : ModifyBody) (m : ProviderMessage),
      (applyLabelMutation body m).content = m.content) ∧
    (∀ (mailbox : String → Option ProviderMessage) (msgId : String) (body : ModifyBody)
        (j : String), j ≠ msgId →
      applyModifyRequest mailbox msgId body j = mailbox j) ∧
    (∀ (mailbox : String → Option ProviderMessage) (msgId : String) (body : ModifyBody),
      (applyModifyRequest mailbox msgId body msgId).map ProviderMessage.content =
        (mailbox msgId).map ProviderMessage.content) := by
  refine ⟨fun a r => ⟨rfl, rfl⟩, fun body m => rfl, ?_, ?_⟩
  · intro mailbox msgId body j hj
    simp [applyModifyRequest, hj]
  · intro mailbox msgId body
    cases h : mailbox msgId <;> simp [applyModifyRequest, h, applyLabelMutation]

/-- C7 (witness). -/
theorem modifyLabels_frame_witness :
    applyModifyRequest (fun _ => some ⟨"content", ["INBOX", "UNREAD"]⟩) "m1"
        (modifyLabelsBody ["STARRED"] ["UNREAD"]) "other" =
      some ⟨"content", ["INBOX", "UNREAD"]⟩ :=
  modifyLabels_frame.2.2.1 (fun _ => some ⟨"content", ["INBOX", "UNREAD"]⟩) "m1"
    (modifyLabelsBody ["STARRED"] ["UNREAD"]) "other" (by decide)

/-- C8: `get_email_details` converts an HTTP error on the provider call
into `None` instead of raising; `list_emails` drops every listed reference
whose details came back `None`, so each element of its result is a fully
constructed `Email` obtained from some listed reference, and — provided
the provider honours the `maxResults` cap on the reference list — the
result has at most `max_results` elements. -/
theorem listEmails_total (htmlClean : String → String) (msgId : String)
    (act : Nat → Except HttpErr RawEmailData) (e : HttpErr)
    (detailsOf : String → Option Email) (lact : Nat → Except HttpErr (List String))
    (refs : List String) (maxResults : Nat)
    (herr : act 0 = Except.error e) (hrefs : lact 0 = Except.ok refs)
    (hcap : refs.length ≤ maxResults) :
    (getEmailDetails htmlClean msgId act).1 = Except.ok none ∧
    (listEmails detailsOf lact).1 = Except.ok (refs.filterMap detailsOf) ∧
    (refs.filterMap detailsOf).length ≤ maxResults ∧
    (∀ em ∈ refs.filterMap detailsOf, ∃ r ∈ refs, detailsOf r = some em) := by
  refine ⟨?_, ?_, ?_, ?_⟩
  · simp [getEmailDetails, tenacityRetry, retryFrom, getEmailDetailsOnce, herr]
  · simp [listEmails, tenacityRetry, retryFrom, listEmailsOnce, hrefs]
  · exact le_trans (List.length_filterMap_le detailsOf refs) hcap
  · intro em hm
    exact List.mem_filterMap.mp hm

/-- C8 (witness). -/
theorem listEmails_total_witness :
    (getEmailDetails (fun s => s) "mX" (fun _ => Except.error ⟨503⟩)).1 = Except.ok none ∧
    (listEmails (fun r => if r == "m1" then some emailA else none)
        (fun _ => Except.ok ["m1", "broken"])).1 =
      Except.ok (["m1", "broken"].filterMap (fun r => if r == "m1" then some emailA else none)) ∧
    (["m1", "broken"].filterMap (fun r => if r == "m1" then some emailA else none)).length ≤ 2 ∧
    (∀ em ∈ ["m1", "broken"].filterMap (fun r => if r == "m1" then some emailA else none),
      ∃ r ∈ ["m1", "broken"],
        (fun r => if r == "m1" then some emailA else none) r = some em) :=
  listEmails_total (fun s => s) "mX" (fun _ => Except.error ⟨503⟩) ⟨503⟩
    (fun r => if r == "m1" then some emailA else none) (fun _ => Except.ok ["m1", "broken"])
    ["m1", "broken"] 2 rfl rfl (by decide)

/-- C9: `_sanitize_body` returns the first fenced code block's content
stripped of surrounding whitespace when the fence pattern matches, and
otherwise the whole text stripped; the plain-text body of every send is
the sanitized body followed by the quoted block (empty when absent). -/
theorem sanitizeBody_correct :
    (∀ (text : String) (inner : List Char), searchFence text.data = some inner →
      sanitizeBody text = pyStrip (String.mk inner)) ∧
    (∀ text : String, searchFence text.data = none → sanitizeBody text = pyStrip text) ∧
    (∀ (fetch : String → Option Email) (subj body : String) (rid fid : Option String),
      fullTextBody fetch subj body rid fid =
        sanitizeBody body ++
          ((replyForwardPrep fetch subj rid fid).quotedInfo.getD "")) := by
  refine ⟨?_, ?_, fun _ _ _ _ _ => rfl⟩
  · intro text inner h
    simp [sanitizeBody, h]
  · intro text h
    simp [sanitizeBody, h]

/-- C9 (witness). -/
theorem sanitizeBody_correct_witness :
    sanitizeBody "intro ```python\nprint(1)\n``` outro" =
      pyStrip (String.mk "print(1)\n".data) ∧
    sanitizeBody "  plain  " = pyStrip "  plain  " :=
  ⟨sanitizeBody_correct.1 "intro ```python\nprint(1)\n``` outro" "print(1)\n".data rfl,
   sanitizeBody_correct.2.1 "  plain  " rfl⟩

/-- C10: the `Email` built from a successfully fetched message never has
missing header fields: a missing `Subject` header becomes `(No Subject)`,
a missing `From` header becomes `Unknown`, and a missing `Date` header
becomes the empty string. -/
theorem buildEmail_defaults (htmlClean : String → String) (msgId : String)
    (m : RawEmailData) :
    (m.subject = none → (buildEmail htmlClean msgId m).subject = "(No Subject)") ∧
    (m.sender = none → (buildEmail htmlClean msgId m).sender = "Unknown") ∧
    (m.date = none → (buildEmail htmlClean msgId m).date = "") := by
  refine ⟨fun h => ?_, fun h => ?_, fun h => ?_⟩ <;> simp [buildEmail, orDefault, h]

/-- C10 (witness). -/
theorem buildEmail_defaults_witness :
    (buildEmail (fun s => s) "mW" rawNoHeaders).subject = "(No Subject)" ∧
    (buildEmail (fun s => s) "mW" rawNoHeaders).sender = "Unknown" ∧
    (buildEmail (fun s => s) "mW" rawNoHeaders).date = "" := by
  have h := buildEmail_defaults (fun s => s) "mW" rawNoHeaders
  exact ⟨h.1 rfl, h.2.1 rfl, h.2.2 rfl⟩

end Astropost
